import Mathlib

/-
Verification of the mlua marshalling core (src/value.rs, src/multi.rs,
src/conversion.rs, src/scope.rs) against its natural-language specification.

The Rust sources are shallowly embedded: machine integers become Int/Nat
(no claim below depends on wrap-around), the guest float type `Number`
becomes ℚ (every claim below touches floats only through the integer cast
and equality, which ℚ models structurally), guest-side handles (string,
table, function, thread, userdata) become identity-carrying values per the
spec's "handle equality is reference identity", and fallible Rust code
returns `Except LuaError`.
-/

deriving instance DecidableEq for Except

namespace Mlua

/-- Guest string content. Lua strings are byte sequences; the claims below
only need equality and the empty string, so Lean's `String` suffices. -/
abbrev LuaStr := String

/-- Modelled from the spec: the error taxonomy of §7 (error.rs is not among
the embedded source files; only its variant names appear in the sources:
`Error::RecursiveMutCallback`, `Error::UserDataTypeMismatch`,
`Error::FromLuaConversionError`, `Error::ToLuaConversionError`,
`Error::RuntimeError`, `Error::BadArgument`, `Error::MetaMethodTypeError`,
plus the borrow/destroyed errors of §4.4: "borrow-conflict failure" and
"destroyed-resource access"). -/
inductive LuaError where
  | RecursiveMutCallback
  | UserDataTypeMismatch
  | UserDataBorrowError
  | UserDataBorrowMutError
  | UserDataDestructed
  | FromLuaConversionError (src : LuaStr) (dst : LuaStr) (message : Option LuaStr)
  | ToLuaConversionError (src : LuaStr) (dst : LuaStr) (message : Option LuaStr)
  | RuntimeError (msg : LuaStr)
  | BadArgument (dst : Option LuaStr) (pos : Nat) (name : Option LuaStr) (cause : LuaError)
  | MetaMethodTypeError (method : LuaStr) (typeName : LuaStr) (message : Option LuaStr)
deriving DecidableEq

/-- The `Value` enum of src/value.rs (lines 27-60): a closed tagged union of
every guest-visible value kind. Handle variants (`String`, `Table`,
`Function`, `Thread`, `UserData`) are references into the guest's object
graph; per spec §3 "handle equality is reference identity", the table,
function, thread and userdata handles are modelled by an identity number,
while the string handle carries its interned content (string equality in
the guest is content equality of the interned bytes). `LightUserData` is a
raw pointer, modelled by its address. `Integer` is the guest integer type
(i64, modelled as Int), `Number` the guest float type (modelled as ℚ). -/
inductive Value where
  | Nil
  | Boolean (b : Bool)
  | LightUserData (ptr : Nat)
  | Integer (i : Int)
  | Number (n : Rat)
  | String (s : LuaStr)
  | Table (id : Nat)
  | Function (id : Nat)
  | Thread (id : Nat)
  | UserData (id : Nat)
  | Error (e : LuaError)
deriving DecidableEq

/-- The `type_name` method of src/value.rs (lines 65-81). -/
def Value.typeName : Value → LuaStr
  | Value.Nil => "nil"
  | Value.Boolean _ => "boolean"
  | Value.LightUserData _ => "lightuserdata"
  | Value.Integer _ => "integer"
  | Value.Number _ => "number"
  | Value.String _ => "string"
  | Value.Table _ => "table"
  | Value.Function _ => "function"
  | Value.Thread _ => "thread"
  | Value.UserData _ => "userdata"
  | Value.Error _ => "error"

/-- The `PartialEq for Value` impl of src/value.rs (lines 126-146), branch
for branch. The two cross-type numeric branches cast the integer operand to
the float type (`*a as Number == *b` and `*a == *b as Number`); the cast
i64 → float is modelled by the exact cast Int → ℚ. Every pair of variants
without a branch (including `Error` with `Error`) falls to the catch-all
`_ => false`. -/
def valueEq : Value → Value → Bool
  | Value.Nil, Value.Nil => true
  | Value.Boolean a, Value.Boolean b => decide (a = b)
  | Value.LightUserData a, Value.LightUserData b => decide (a = b)
  | Value.Integer a, Value.Integer b => decide (a = b)
  | Value.Integer a, Value.Number b => decide ((a : Rat) = b)
  | Value.Number a, Value.Integer b => decide (a = (b : Rat))
  | Value.Number a, Value.Number b => decide (a = b)
  | Value.String a, Value.String b => decide (a = b)
  | Value.Table a, Value.Table b => decide (a = b)
  | Value.Function a, Value.Function b => decide (a = b)
  | Value.Thread a, Value.Thread b => decide (a = b)
  | Value.UserData a, Value.UserData b => decide (a = b)
  | _, _ => false

/-- The `MultiValue` struct of src/value.rs (line 210): a `Vec<Value>` whose
storage order is the reverse of the logical front-to-back order. The backing
list models the Vec with list head = Vec index 0, so `Vec::push` appends at
the end and `Vec::pop` removes the last element. -/
structure MultiValue where
  backing : List Value
deriving DecidableEq

/-- Rust `Vec::pop`: removes and returns the last element, `none` when the
vector is empty. -/
def vecPop {α : Type} : List α → Option α × List α
  | [] => (none, [])
  | [a] => (some a, [])
  | a :: b :: rest =>
      let r := vecPop (b :: rest)
      (r.1, a :: r.2)

/-- The `MultiValue::new` constructor (src/value.rs lines 214-216). -/
def MultiValue.new : MultiValue := ⟨[]⟩

/-- The `MultiValue::new_or_pooled` constructor (src/value.rs lines 220-222).
Modelled from the spec: §4.2 pool discipline — "obtaining a list from the
pool must reset length to zero before use", so a pooled container is
indistinguishable from a fresh empty one at the value level. -/
def MultiValue.newOrPooled : MultiValue := MultiValue.new

/-- The `MultiValue::from_vec` constructor (src/value.rs lines 284-287):
reverses the front-to-back vector into the back-to-front storage. -/
def MultiValue.fromVec (v : List Value) : MultiValue := ⟨v.reverse⟩

/-- The `MultiValue::into_vec` accessor (src/value.rs lines 290-294). -/
def MultiValue.intoVec (m : MultiValue) : List Value := m.backing.reverse

/-- The `MultiValue::get` accessor (src/value.rs lines 297-302): logical
front-to-back index into the reversed storage. -/
def MultiValue.get (m : MultiValue) (index : Nat) : Option Value :=
  if index < m.backing.length then m.backing[m.backing.length - index - 1]? else none

/-- The `MultiValue::pop_front` operation (src/value.rs lines 310-312):
`self.0.pop()`. Returns the popped element (if any) and the new state. -/
def MultiValue.popFront (m : MultiValue) : Option Value × MultiValue :=
  let r := vecPop m.backing
  (r.1, ⟨r.2⟩)

/-- The `MultiValue::push_front` operation (src/value.rs lines 315-317):
`self.0.push(value)`. -/
def MultiValue.pushFront (m : MultiValue) (value : Value) : MultiValue :=
  ⟨m.backing ++ [value]⟩

/-- The `MultiValue::clear` operation (src/value.rs lines 320-322). -/
def MultiValue.clear (_ : MultiValue) : MultiValue := ⟨[]⟩

/-- The `MultiValue::len` accessor (src/value.rs lines 325-327). -/
def MultiValue.len (m : MultiValue) : Nat := m.backing.length

/-- The `MultiValue::is_empty` accessor (src/value.rs lines 330-332). -/
def MultiValue.isEmpty (m : MultiValue) : Bool := m.backing.isEmpty

/-- The iteration order of `MultiValue::iter`, `drain_all` and both
`IntoIterator` impls (src/value.rs lines 245-263 and 335-342): the backing
vector iterated in reverse, i.e. logical front-to-back order, as a list. -/
def MultiValue.iterList (m : MultiValue) : List Value := m.backing.reverse

/-- Recursion of `MultiValue::refill` (src/value.rs lines 345-352): the loop
body `self.0.push(value?)` over the source, where `acc` is the cleared
backing vector being filled. On the first error the `?` operator returns it
with the partially filled, not yet reversed backing in place; on success the
backing is reversed in place. -/
def refillAux (acc : List Value) : List (Except LuaError Value) → Except LuaError Unit × List Value
  | [] => (Except.ok (), acc.reverse)
  | Except.ok v :: rest => refillAux (acc ++ [v]) rest
  | Except.error e :: _ => (Except.error e, acc)

/-- The `MultiValue::refill` operation (src/value.rs lines 345-352): clear,
push each source item stopping at the first error, reverse on success.
Returns the Rust method's `Result<()>` and the final state. -/
def MultiValue.refill (_ : MultiValue) (src : List (Except LuaError Value)) :
    Except LuaError Unit × MultiValue :=
  let r := refillAux [] src
  (r.1, ⟨r.2⟩)

/-- The `FromLua for bool` impl of src/conversion.rs (lines 262-271):
nil and false convert to false, every other value to true; never fails. -/
def boolFromLua : Value → Except LuaError Bool
  | Value.Nil => Except.ok false
  | Value.Boolean b => Except.ok b
  | _ => Except.ok true

/-- The blanket `FromLuaMulti for T: FromLua` impl of src/multi.rs (lines
35-42): pop the front element (Nil when the list is empty) and convert it
with the single-value conversion `f`. The `return_to_pool` call affects only
the allocation pool, not the result. -/
def singleFromLuaMulti {α : Type} (f : Value → Except LuaError α)
    (values : MultiValue) : Except LuaError α :=
  f ((values.popFront).1.getD Value.Nil)

/-- The `IntoLuaMulti for StdResult<T, E>` impl of src/multi.rs (lines
11-24): start from an empty (pooled) list; on success push the converted
success payload to the front; on failure push the converted failure payload,
then Nil, to the front. `fT` and `fE` are the payloads' `IntoLua`
conversions. -/
def resultIntoLuaMulti {α ε : Type} (fT : α → Except LuaError Value)
    (fE : ε → Except LuaError Value) (r : Except ε α) : Except LuaError MultiValue :=
  let result := MultiValue.newOrPooled
  match r with
  | Except.ok v => do
      let x ← fT v
      Except.ok (result.pushFront x)
  | Except.error e => do
      let x ← fE e
      let result := result.pushFront x
      Except.ok (result.pushFront Value.Nil)

/-- The `FromLuaMulti` side of the `impl_tuple!` macro of src/multi.rs
(lines 198-223), generalized over the arity: for each non-last tuple element
in left-to-right order, `values.pop_front().unwrap_or(Nil)` is decoded by
that element's `FromLua` conversion; the remaining list is passed whole to
the last element's `FromLuaMulti` conversion. The non-last element decoders
are homogeneous here (`fs : List _`) so that one definition covers every
arity the macro instantiates. -/
def tupleFromLuaMulti {α β : Type} (fs : List (Value → Except LuaError α))
    (fLast : MultiValue → Except LuaError β) (values : MultiValue) :
    Except LuaError (List α × β) :=
  match fs with
  | [] => do
      let b ← fLast values
      Except.ok ([], b)
  | f :: rest => do
      let p := values.popFront
      let a ← f (p.1.getD Value.Nil)
      let tl ← tupleFromLuaMulti rest fLast p.2
      Except.ok (a :: tl.1, tl.2)

/-- Modelled from the spec: a guest table's contents as key/value pairs, the
§6 external-interface view ("query/set a table's sequence length and iterate
key/value pairs"). table.rs is not among the embedded sources; a guest heap
maps each table handle id to its entry list (keys distinct, values
non-nil). -/
def GuestHeap : Type := Nat → List (Value × Value)

/-- Modelled from the spec: raw table read, the value bound to key `k` in the
entry list, Nil when the key is absent (§6 table interface). -/
def tableGet (entries : List (Value × Value)) (k : Value) : Value :=
  match entries.find? (fun kv => decide (kv.1 = k)) with
  | some kv => kv.2
  | none => Value.Nil

/-- Modelled from the spec: iteration of the table's sequence part, reading
keys 1, 2, 3, … until the first Nil (§4.3 "sequence/collection targets
iterate the table's sequence part (1..n contiguous integer keys)"). `fuel`
bounds the recursion; an entry list of length L has at most L non-nil
values, so fuel L from index 1 reaches every sequence element. -/
def seqValuesAux (entries : List (Value × Value)) : Nat → Int → List Value
  | 0, _ => []
  | fuel + 1, i =>
      match tableGet entries (Value.Integer i) with
      | Value.Nil => []
      | v => v :: seqValuesAux entries fuel (i + 1)

/-- Modelled from the spec: the values of the table's sequence part in index
order, i.e. what `Table::sequence_values` iterates (§4.3, §6). -/
def seqValues (entries : List (Value × Value)) : List Value :=
  seqValuesAux entries entries.length 1

/-- Modelled from the spec: the table's sequence length, what `Table::len`
returns (§6 "query/set a table's sequence length"). -/
def tableLen (entries : List (Value × Value)) : Nat :=
  (seqValues entries).length

/-- The `FromLua for HashSet`/`FromLua for BTreeSet` impls of
src/conversion.rs (lines 687-703 and 714-730), which differ only in the
`to` string of the error (`dst`): a table whose sequence length is positive
is collected from its sequence values, each decoded by the element
conversion `f`; any other table is collected from the keys of its key/value
pairs; a non-table value is a conversion error. The resulting set is
represented by the list of decoded elements in collection order. -/
def setFromLua {α : Type} (dst : LuaStr) (f : Value → Except LuaError α)
    (heap : GuestHeap) (v : Value) : Except LuaError (List α) :=
  match v with
  | Value.Table id =>
      let entries := heap id
      if tableLen entries > 0 then
        (seqValues entries).mapM f
      else
        entries.mapM (fun kv => f kv.1)
  | _ =>
      Except.error
        (LuaError.FromLuaConversionError v.typeName dst (some "expected table"))

/-- One resource registered in a `Scope` (src/scope.rs line 38: the
`destructors` vector): its guest handle, whether the guest object is still
live when the scope is dropped (`push_userdata_ref` succeeds — it may have
been destructed early via `take()`), and the host payloads its destructor
recovers with `take_userdata`. -/
structure ScopedResource where
  handle : Nat
  alive : Bool
  payloads : List Nat
deriving DecidableEq

/-- Observable teardown events: severing a resource's guest-side association
(clearing its user values / callback upvalue, src/scope.rs lines 223-251,
456-497, 515-530) and dropping a recovered host payload. -/
inductive TeardownEvent where
  | sever (handle : Nat)
  | dropPayload (p : Nat)
deriving DecidableEq

/-- One destructor callback invocation (the closures registered in
src/scope.rs `seal_userdata`, `create_nonstatic_userdata` and
`create_callback`): if the resource is no longer live it returns an empty
payload vector without touching the guest; otherwise it severs the
guest-side association and returns the recovered payloads. Yields the
events it performs and the payload vector it returns. -/
def runDestructor (r : ScopedResource) : List TeardownEvent × List Nat :=
  if r.alive then ([TeardownEvent.sever r.handle], r.payloads) else ([], [])

/-- The `Drop for Scope` impl of src/scope.rs (lines 539-555) as an event
trace: `drain(..).flat_map(|(r, dest)| dest(r)).collect()` invokes every
destructor in registration order, collecting all recovered payloads into
`to_drop`, and only then `drop(to_drop)` drops them, in collection order. -/
def scopeDropTrace (regs : List ScopedResource) : List TeardownEvent :=
  (regs.flatMap (fun r => (runDestructor r).1)) ++
    (regs.flatMap (fun r => (runDestructor r).2)).map TeardownEvent.dropPayload

/-- The wrapper built by `Scope::create_function_mut` (src/scope.rs lines
90-102) and the `NonStaticMethod::FunctionMut` arm of `wrap_method` (lines
340-350): the mutable closure sits in a `RefCell`; a call first tries
`try_borrow_mut`, mapping failure to `Error::RecursiveMutCallback`.
`borrowed` is the RefCell's state — true exactly while a call to this same
closure is still on the stack, so invoking the wrapper with `borrowed =
true` is a reentrant invocation. -/
def callFunctionMut (borrowed : Bool) (inner : MultiValue → Except LuaError MultiValue)
    (args : MultiValue) : Except LuaError MultiValue :=
  if borrowed then Except.error LuaError.RecursiveMutCallback
  else inner args

/-- The `check_ud_type` closure of `Scope::create_nonstatic_userdata`
(src/scope.rs lines 303-316): the popped first argument must be a userdata
whose pushed pointer equals the expected one; pushing a destructed userdata
fails first (`push_userdata_ref`, a destroyed-resource error per spec §7);
any other shape is `Error::UserDataTypeMismatch`. `destructed` tells, per
handle id, whether the userdata was already destructed. -/
def checkUdType (udPtr : Nat) (destructed : Nat → Bool) (v : Option Value) :
    Except LuaError Unit :=
  match v with
  | some (Value.UserData p) =>
      if destructed p then Except.error LuaError.UserDataDestructed
      else if p = udPtr then Except.ok ()
      else Except.error LuaError.UserDataTypeMismatch
  | _ => Except.error LuaError.UserDataTypeMismatch

/-- The borrow state of an opaque-object cell (`UserDataCell`, spec §3/§4.4:
"at most one exclusive borrow or any number of shared borrows may be active
at a time"): whether shared borrows are active and whether the exclusive
borrow is active. -/
structure UserDataCellState where
  borrowed : Bool
  borrowedMut : Bool
deriving DecidableEq

/-- The `NonStaticMethod::MethodMut` arm of `wrap_method` in
`Scope::create_nonstatic_userdata` (src/scope.rs lines 327-337), in source
order: pop the first argument and type-check it; `try_borrow_mut` on the
RefCell holding the method closure, failing with
`Error::RecursiveMutCallback` when a call to this same method is still
active (`methodBorrowed = true`); then `try_borrow_mut` on the data cell,
failing with the borrow-conflict error when any borrow of the data is
active (modelled from the spec, §4.4); finally run the method body on the
remaining arguments. -/
def methodMutDispatch (udPtr : Nat) (destructed : Nat → Bool)
    (methodBorrowed : Bool) (st : UserDataCellState)
    (method : MultiValue → Except LuaError MultiValue)
    (args : MultiValue) : Except LuaError MultiValue := do
  let p := args.popFront
  let _ ← checkUdType udPtr destructed p.1
  if methodBorrowed then Except.error LuaError.RecursiveMutCallback
  else if st.borrowed || st.borrowedMut then Except.error LuaError.UserDataBorrowMutError
  else method p.2

/-- Example Scope registration list: two live resources (one with two
payloads) and one resource already destructed early via `take()`. Its
teardown trace is `[sever 1, sever 3, drop 100, drop 300, drop 301]`. -/
def c1Regs : List ScopedResource :=
  [⟨1, true, [100]⟩, ⟨2, false, [200]⟩, ⟨3, true, [300, 301]⟩]

/-- Example guest table for the set-decoding claim: the sequence
`{10, 20}`, i.e. entries `1 ↦ 10, 2 ↦ 20`; its sequence part is non-empty
(length 2). -/
def c6Entries : List (Value × Value) :=
  [(Value.Integer 1, Value.Integer 10), (Value.Integer 2, Value.Integer 20)]

/-- Guest heap binding every table handle to `c6Entries`. -/
def c6Heap : GuestHeap := fun _ => c6Entries

/-! Helper lemmas about the reversed backing vector. -/

theorem vecPop_concat {α : Type} (l : List α) (a : α) :
    vecPop (l ++ [a]) = (some a, l) := by
  induction l with
  | nil => rfl
  | cons x xs ih =>
      cases xs with
      | nil => simp [vecPop] at ih ⊢
      | cons y ys => simp [vecPop] at ih ⊢; simp [ih]

theorem popFront_fromVec_cons (v : Value) (vs : List Value) :
    (MultiValue.fromVec (v :: vs)).popFront = (some v, MultiValue.fromVec vs) := by
  simp [MultiValue.fromVec, MultiValue.popFront, vecPop_concat]

theorem popFront_fromVec_nil :
    (MultiValue.fromVec []).popFront = (none, MultiValue.fromVec []) := rfl

/-- C7. For every MultiValue, iteration yields the logical front-to-back
order regardless of the reversed internal storage: `into_vec` and iteration
on `from_vec v` yield exactly `v` in order, `push_front x` makes `x` the
first iterated element, `get i` returns the i-th element of that same
front-to-back order (`none` past the length, since `len` equals the
iteration length). -/
theorem multivalue_iteration_order (v : List Value) (m : MultiValue) (x : Value) (i : Nat) :
    (MultiValue.fromVec v).intoVec = v ∧
    (MultiValue.fromVec v).iterList = v ∧
    (m.pushFront x).iterList = x :: m.iterList ∧
    m.get i = m.iterList[i]? ∧
    m.len = m.iterList.length := by
  refine ⟨by simp [MultiValue.fromVec, MultiValue.intoVec],
          by simp [MultiValue.fromVec, MultiValue.iterList],
          by simp [MultiValue.pushFront, MultiValue.iterList],
          ?_,
          by simp [MultiValue.len, MultiValue.iterList]⟩
  unfold MultiValue.get MultiValue.iterList
  by_cases h : i < m.backing.length
  · rw [if_pos h, List.getElem?_reverse h]
    congr 1
    omega
  · rw [if_neg h]
    refine (List.getElem?_eq_none ?_).symm
    simpa using Nat.le_of_not_lt h

/-- C8. Popping the front of an empty value list is total: it returns the
nil-standing result (`none`, which every consumer in src/multi.rs maps to
`Nil` via `unwrap_or(Nil)`), never an error, and the blanket single-value
`from_lua_multi` on an empty list therefore decodes `Nil`. -/
theorem pop_front_empty_nil (m : MultiValue) (h : m.isEmpty = true) :
    m.popFront = (none, m) ∧
    (∀ {α : Type} (f : Value → Except LuaError α), singleFromLuaMulti f m = f Value.Nil) := by
  obtain ⟨l⟩ := m
  simp [MultiValue.isEmpty, List.isEmpty_iff] at h
  subst h
  exact ⟨rfl, fun f => rfl⟩

/-- Closed witness for `pop_front_empty_nil` at the empty list. -/
theorem pop_front_empty_nil_witness :
    MultiValue.new.popFront = (none, MultiValue.new) :=
  (pop_front_empty_nil MultiValue.new (by decide)).1

theorem refillAux_ok (oks : List Value) : ∀ acc : List Value,
    refillAux acc (oks.map Except.ok) = (Except.ok (), (acc ++ oks).reverse) := by
  induction oks with
  | nil => intro acc; simp [refillAux]
  | cons v vs ih =>
      intro acc
      simp only [List.map_cons, refillAux, ih]
      simp

theorem refillAux_error (oks : List Value) (e : LuaError)
    (rest : List (Except LuaError Value)) : ∀ acc : List Value,
    refillAux acc (oks.map Except.ok ++ Except.error e :: rest) = (Except.error e, acc ++ oks) := by
  induction oks with
  | nil => intro acc; simp [refillAux]
  | cons v vs ih =>
      intro acc
      simp only [List.map_cons, List.cons_append, refillAux, ih]
      simp [ih]

/-- C9. `refill` first clears the list; when every source item succeeds the
list afterwards holds exactly the source's values in front-to-back source
order and `refill` returns Ok; when some item fails, `refill` returns the
first error of the source and leaves a valid partial state (the backing
vector holding only the successfully converted prefix) with no values from
before the call — the result is the same for every prior state `m`. -/
theorem refill_clear_then_repopulate (m : MultiValue) (oks : List Value)
    (e : LuaError) (rest : List (Except LuaError Value)) :
    m.refill (oks.map Except.ok) = (Except.ok (), MultiValue.fromVec oks) ∧
    m.refill (oks.map Except.ok ++ Except.error e :: rest) =
      (Except.error e, MultiValue.mk oks) := by
  constructor
  · simp [MultiValue.refill, refillAux_ok, MultiValue.fromVec]
  · simp [MultiValue.refill, refillAux_error]

/-- C2. The to-guest multi-value conversion of a host Result: a success
payload `v` whose `IntoLua` conversion yields `val` produces exactly the
one-element list `[val]` in front-to-back order; a failure payload `e`
whose conversion yields `errval` produces exactly the two-element list
`[Nil, errval]` in front-to-back order. -/
theorem result_into_lua_multi_encoding {α ε : Type}
    (fT : α → Except LuaError Value) (fE : ε → Except LuaError Value)
    (v : α) (e : ε) (val errval : Value)
    (hv : fT v = Except.ok val) (he : fE e = Except.ok errval) :
    (resultIntoLuaMulti fT fE (Except.ok v)).map MultiValue.iterList = Except.ok [val] ∧
    (resultIntoLuaMulti fT fE (Except.error e)).map MultiValue.iterList =
      Except.ok [Value.Nil, errval] := by
  constructor
  · simp only [resultIntoLuaMulti, hv]
    rfl
  · simp only [resultIntoLuaMulti, he]
    rfl

/-- Closed witness for `result_into_lua_multi_encoding` with the identity
`IntoLua` conversion (the `IntoLua for Value` impl) at concrete payloads. -/
theorem result_into_lua_multi_encoding_witness :
    (resultIntoLuaMulti Except.ok Except.ok (Except.ok (Value.Integer 7))).map
      MultiValue.iterList = Except.ok [Value.Integer 7] ∧
    (resultIntoLuaMulti Except.ok Except.ok
        (Except.error (Value.String "boom"))).map MultiValue.iterList =
      Except.ok [Value.Nil, Value.String "boom"] :=
  result_into_lua_multi_encoding Except.ok Except.ok (Value.Integer 7)
    (Value.String "boom") (Value.Integer 7) (Value.String "boom") rfl rfl

/-- C3. The from-guest conversion to host bool never fails, returns false
exactly for Nil and Boolean false, and returns true for every other Value
(so in particular for Integer 0, Number 0.0, and the empty string). -/
theorem bool_from_lua_truthiness (v : Value) :
    (boolFromLua v = Except.ok false ↔ v = Value.Nil ∨ v = Value.Boolean false) ∧
    (¬(v = Value.Nil ∨ v = Value.Boolean false) → boolFromLua v = Except.ok true) := by
  cases v <;> simp [boolFromLua]

/-- Closed witness for `bool_from_lua_truthiness` at integer 0, float 0.0
and the empty string, each converting to true. -/
theorem bool_from_lua_truthiness_witness :
    boolFromLua (Value.Integer 0) = Except.ok true ∧
    boolFromLua (Value.Number 0) = Except.ok true ∧
    boolFromLua (Value.String "") = Except.ok true :=
  ⟨(bool_from_lua_truthiness (Value.Integer 0)).2 (by decide),
   (bool_from_lua_truthiness (Value.Number 0)).2 (by decide),
   (bool_from_lua_truthiness (Value.String "")).2 (by decide)⟩

/-- C4. Tuple threading of the from-guest multi-value conversion: on input
`from_vec vs`, each non-last tuple element consumes exactly one front
element in left-to-right order — the i-th decoder receives the i-th element
of `vs`, or `Nil` when `vs` has fewer elements than there are non-last
positions — and the last element's multi-value conversion receives exactly
the remaining elements `vs.drop fs.length`. -/
theorem tuple_from_lua_multi_threading {α β : Type}
    (fs : List (Value → Except LuaError α)) (fLast : MultiValue → Except LuaError β)
    (vs : List Value) :
    tupleFromLuaMulti fs fLast (MultiValue.fromVec vs) =
      (do
        let xs ← (fs.zip (vs.take fs.length ++
            List.replicate (fs.length - vs.length) Value.Nil)).mapM (fun fv => fv.1 fv.2)
        let b ← fLast (MultiValue.fromVec (vs.drop fs.length))
        Except.ok (xs, b)) := by
  induction fs generalizing vs with
  | nil =>
      simp only [tupleFromLuaMulti, List.zip_nil_left, List.mapM_nil, List.length_nil,
        List.take_zero, List.drop_zero, pure_bind]
  | cons f fs ih =>
      cases vs with
      | nil =>
          simp only [tupleFromLuaMulti, popFront_fromVec_nil, Option.getD_none,
            List.length_cons, List.length_nil, List.take_nil, Nat.sub_zero,
            List.replicate_succ, List.nil_append, List.zip_cons_cons, List.mapM_cons]
          cases hf : f Value.Nil with
          | error err => rfl
          | ok a =>
              rw [ih]
              simp only [List.drop_nil, List.take_nil, List.length_nil, Nat.sub_zero,
                List.nil_append]
              cases (fs.zip (List.replicate fs.length Value.Nil)).mapM
                  (fun fv => fv.1 fv.2) with
              | error err => rfl
              | ok xs =>
                  cases fLast (MultiValue.fromVec []) <;> rfl
      | cons v vs' =>
          simp only [tupleFromLuaMulti, popFront_fromVec_cons, Option.getD_some,
            List.length_cons, List.take_succ_cons, List.cons_append,
            List.zip_cons_cons, List.mapM_cons, List.drop_succ_cons,
            Nat.succ_sub_succ]
          cases hf : f v with
          | error err => rfl
          | ok a =>
              rw [ih]
              cases (fs.zip (vs'.take fs.length ++
                  List.replicate (fs.length - vs'.length) Value.Nil)).mapM
                  (fun fv => fv.1 fv.2) with
              | error err => rfl
              | ok xs =>
                  cases fLast (MultiValue.fromVec (vs'.drop fs.length)) <;> rfl

theorem sever_phase_shape (regs : List ScopedResource) :
    ∀ e ∈ regs.flatMap (fun q => (runDestructor q).1), ∃ h, e = TeardownEvent.sever h := by
  intro e he
  rw [List.mem_flatMap] at he
  obtain ⟨q, _, he⟩ := he
  unfold runDestructor at he
  by_cases ha : q.alive
  · simp [ha] at he
    exact ⟨q.handle, he⟩
  · simp [ha] at he

/-- C1. Scope teardown is two-phase: in the teardown trace of a dropped
Scope, every association-severing event precedes every payload-drop event
(no payload drop happens while any association is still to be severed), and
for every still-live registered resource the trace contains its severing
event and a drop event for each of its recovered payloads. -/
theorem scope_drop_two_phase (regs : List ScopedResource) :
    (∀ (i j p r : Nat), (scopeDropTrace regs)[i]? = some (TeardownEvent.dropPayload p) →
        (scopeDropTrace regs)[j]? = some (TeardownEvent.sever r) → j < i) ∧
    (∀ q ∈ regs, q.alive = true →
        TeardownEvent.sever q.handle ∈ scopeDropTrace regs ∧
        ∀ p ∈ q.payloads, TeardownEvent.dropPayload p ∈ scopeDropTrace regs) := by
  constructor
  · intro i j p r hd hs
    unfold scopeDropTrace at hd hs
    rw [List.getElem?_append] at hd hs
    by_cases hi : i < (regs.flatMap (fun q => (runDestructor q).1)).length
    · rw [if_pos hi] at hd
      obtain ⟨h, habs⟩ := sever_phase_shape regs _ (List.getElem?_mem hd)
      exact TeardownEvent.noConfusion habs
    · by_cases hj : j < (regs.flatMap (fun q => (runDestructor q).1)).length
      · omega
      · rw [if_neg hj] at hs
        have hmem := List.getElem?_mem hs
        rw [List.mem_map] at hmem
        obtain ⟨a, _, habs⟩ := hmem
        exact TeardownEvent.noConfusion habs
  · intro q hq halive
    constructor
    · apply List.mem_append_left
      rw [List.mem_flatMap]
      exact ⟨q, hq, by simp [runDestructor, halive]⟩
    · intro p hp
      apply List.mem_append_right
      rw [List.mem_map]
      refine ⟨p, ?_, rfl⟩
      rw [List.mem_flatMap]
      exact ⟨q, hq, by simp [runDestructor, halive, hp]⟩

/-- Closed witness for `scope_drop_two_phase` on `c1Regs`: the payload-drop
at index 2 comes after the sever at index 0, and resource 1's sever event
is in the trace. -/
theorem scope_drop_two_phase_witness :
    0 < 2 ∧ TeardownEvent.sever 1 ∈ scopeDropTrace c1Regs :=
  ⟨(scope_drop_two_phase c1Regs).1 2 0 100 1 (by decide) (by decide),
   ((scope_drop_two_phase c1Regs).2 ⟨1, true, [100]⟩ (by decide) rfl).1⟩

/-- C5. A reentrant invocation of a scoped mutable callback or mutable
userdata method — a guest call arriving while the exclusive borrow taken by
an active call to the same closure is still held — returns
`Error::RecursiveMutCallback`: so for `create_function_mut` wrappers, and
for `MethodMut` dispatch whenever the self argument is the live matching
userdata, whatever the data cell's own borrow state. The model is total, so
neither path can deadlock or panic. -/
theorem reentrant_mut_borrow_error (udPtr : Nat) (destructed : Nat → Bool)
    (st : UserDataCellState) (inner method : MultiValue → Except LuaError MultiValue)
    (args margs : MultiValue) (rest : MultiValue)
    (hself : margs.popFront = (some (Value.UserData udPtr), rest))
    (hlive : destructed udPtr = false) :
    callFunctionMut true inner args = Except.error LuaError.RecursiveMutCallback ∧
    methodMutDispatch udPtr destructed true st method margs =
      Except.error LuaError.RecursiveMutCallback := by
  constructor
  · rfl
  · simp only [methodMutDispatch, hself, checkUdType, hlive]
    rfl

/-- Closed witness for `reentrant_mut_borrow_error`: a reentrant call on
userdata 0 with an unborrowed data cell fails with RecursiveMutCallback. -/
theorem reentrant_mut_borrow_error_witness :
    methodMutDispatch 0 (fun _ => false) true ⟨false, false⟩ Except.ok
        (MultiValue.fromVec [Value.UserData 0, Value.Integer 5]) =
      Except.error LuaError.RecursiveMutCallback :=
  (reentrant_mut_borrow_error 0 (fun _ => false) ⟨false, false⟩ Except.ok Except.ok
    MultiValue.new (MultiValue.fromVec [Value.UserData 0, Value.Integer 5])
    (MultiValue.fromVec [Value.Integer 5]) (by decide) rfl).2

/-- C10. Structural equality on Value unifies integers and floats
symmetrically: `Integer i == Number n` holds exactly when the integer cast
to the float type equals `n`, `Number n == Integer i` gives the same
result, and any two values of different variants other than this
Integer/Number pairing compare unequal. -/
theorem value_partial_eq_laws (i : Int) (n : Rat) (v w : Value)
    (htag : v.typeName ≠ w.typeName)
    (hnum1 : ¬(v.typeName = "integer" ∧ w.typeName = "number"))
    (hnum2 : ¬(v.typeName = "number" ∧ w.typeName = "integer")) :
    valueEq (Value.Integer i) (Value.Number n) = decide ((i : Rat) = n) ∧
    valueEq (Value.Number n) (Value.Integer i) = decide ((i : Rat) = n) ∧
    valueEq v w = false := by
  refine ⟨rfl, ?_, ?_⟩
  · show decide (n = (i : Rat)) = decide ((i : Rat) = n)
    rw [decide_eq_decide]
    exact eq_comm
  · cases v <;> cases w <;> first
      | rfl
      | simp_all [Value.typeName]

/-- Closed witness for `value_partial_eq_laws`: Nil and Boolean true are of
different, non-numeric variants and compare unequal. -/
theorem value_partial_eq_laws_witness :
    valueEq Value.Nil (Value.Boolean true) = false :=
  (value_partial_eq_laws 0 0 Value.Nil (Value.Boolean true)
    (by decide) (by decide) (by decide)).2.2

/-- C6 counterexample: decoding the sequence table `{10, 20}` (non-empty
sequence part) into a set produces the sequence values 10 and 20, and 10 is
not among the table's keys — so the conversion does not produce the set of
the table's keys as the claim states. -/
theorem set_from_lua_keys_counterexample :
    tableLen c6Entries > 0 ∧
    setFromLua "HashSet" Except.ok c6Heap (Value.Table 0) =
      Except.ok [Value.Integer 10, Value.Integer 20] ∧
    Value.Integer 10 ∉ c6Entries.map Prod.fst := by
  refine ⟨by decide, by decide, by decide⟩

/-- C6 (amended). For every guest table whose sequence part is non-empty,
the from-guest conversion to a set target collects the table's sequence
values (each decoded by the element conversion), not its keys; a table with
an empty sequence part is read back via its key/value pairs taking the
keys. -/
theorem set_from_lua_policy {α : Type} (dst : LuaStr) (f : Value → Except LuaError α)
    (heap : GuestHeap) (id : Nat) :
    (tableLen (heap id) > 0 →
      setFromLua dst f heap (Value.Table id) = (seqValues (heap id)).mapM f) ∧
    (tableLen (heap id) = 0 →
      setFromLua dst f heap (Value.Table id) =
        (heap id).mapM (fun kv => f kv.1)) := by
  constructor
  · intro h
    simp [setFromLua, h]
  · intro h
    simp [setFromLua, h]

/-- Closed witness for `set_from_lua_policy` on the sequence table
`{10, 20}`. -/
theorem set_from_lua_policy_witness :
    setFromLua "HashSet" Except.ok c6Heap (Value.Table 0) =
      (seqValues c6Entries).mapM Except.ok :=
  (set_from_lua_policy "HashSet" Except.ok c6Heap 0).1 (by decide)

end Mlua
